import Mathlib

/-!
Verification of the loan-amortization schedule generator
(`src/loan_amortization_app.py`).

The numeric core of the program (monthly-payment derivation, the
per-period interest/principal split with clamping, and the emitted
rounded values) is embedded over `ℚ`; Python's `round(x, 2)` is
round-half-to-even at two decimals, embedded as `round2`.  The Excel
formula strings the program writes into the ledger are embedded by
their evaluation semantics: each formula becomes a Lean function whose
arguments are the values of the cells the formula references, with
`Option ℚ` for cells that may be blank (`ISNUMBER` on a blank cell is
false) and blank coerced to `0` inside arithmetic, as Excel does.
-/

namespace LoanAmortization

/-- Round-half-to-even to the nearest integer, the tie rule of Python's
built-in `round`. -/
def roundHalfEven (x : ℚ) : ℤ :=
  if x - ⌊x⌋ < 1/2 then ⌊x⌋
  else if 1/2 < x - ⌊x⌋ then ⌊x⌋ + 1
  else if ⌊x⌋ % 2 = 0 then ⌊x⌋ else ⌊x⌋ + 1

/-- Python's `round(x, 2)` (source lines 100-102): round half to even at
two decimal places. -/
def round2 (x : ℚ) : ℚ := (roundHalfEven (100 * x) : ℚ) / 100

/-- Source line 73: `monthly_rate = interest_rate / 100 / 12`. -/
def monthlyRate (annualRatePercent : ℚ) : ℚ := annualRatePercent / 100 / 12

/-- Denominator of the annuity formula, source line 84:
`(1 + monthly_rate) ** amort_months - 1`. -/
def annuityDenominator (annualRatePercent : ℚ) (amortMonths : ℕ) : ℚ :=
  (1 + monthlyRate annualRatePercent) ^ amortMonths - 1

/-- Source lines 78-85: the monthly payment.  Zero rate divides the
principal evenly over the amortization months; otherwise the standard
annuity formula over the amortization months. -/
def monthly_payment (loanAmount annualRatePercent : ℚ) (amortMonths : ℕ) : ℚ :=
  if monthlyRate annualRatePercent = 0 then loanAmount / amortMonths
  else
    loanAmount * (monthlyRate annualRatePercent * (1 + monthlyRate annualRatePercent) ^ amortMonths)
      / annuityDenominator annualRatePercent amortMonths

/-- The monthly-payment rule exactly as the specification words it
(section 4.1): "if monthlyRate == 0, principal / amortizationMonths;
else standard annuity formula `P·r·(1+r)^n / ((1+r)^n − 1)` where
n = amortizationMonths", with monthlyRate = annualRatePercent/100/12.
Stated independently of `monthly_payment` so the code can be compared
against the spec's formula. -/
def monthlyPaymentSpec (P rate : ℚ) (n : ℕ) : ℚ :=
  if rate / 100 / 12 = 0 then P / n
  else P * (rate / 100 / 12 * (1 + rate / 100 / 12) ^ n) / ((1 + rate / 100 / 12) ^ n - 1)

/-- One emitted schedule record (source lines 97-103).  The due date is
presentation data and carries no logic, so it is omitted; `idx` is the
1-based `Payment #`. -/
structure Period where
  idx : ℕ
  scheduledPayment : ℚ
  scheduledInterest : ℚ
  scheduledPrincipal : ℚ
deriving DecidableEq, Repr

/-- The loop body, source lines 91-96: interest on the running balance,
principal as payment minus interest, balance decrement, and the clamp
that folds a negative balance back into the period's principal.
Returns `(interest, clamped principal, new balance)`, all full
precision. -/
def amortStep (r pay bal : ℚ) : ℚ × ℚ × ℚ :=
  let interest := bal * r
  let princ0 := pay - interest
  let bal1 := bal - princ0
  if bal1 < 0 then (interest, princ0 + bal1, 0) else (interest, princ0, bal1)

/-- The schedule loop, source lines 90-105.  `k` is the number of loop
indices still to run (initially `term_months`), `m` the current 1-based
payment number, `bal` the full-precision running balance.  Each pass
appends one record with the monetary fields rounded to two decimals and
breaks as soon as the running balance is `≤ 0`.  Returns the emitted
list together with the final value of `balance`. -/
def scheduleGo (r pay : ℚ) : ℕ → ℕ → ℚ → List Period × ℚ
  | 0, _, bal => ([], bal)
  | k+1, m, bal =>
    let s := amortStep r pay bal
    let p : Period := ⟨m, round2 pay, round2 s.1, round2 s.2.1⟩
    if s.2.2 ≤ 0 then ([p], s.2.2)
    else
      let rest := scheduleGo r pay k (m+1) s.2.2
      (p :: rest.1, rest.2)

/-- Source lines 73-105 end to end: derived rate and payment, then the
schedule loop started at `balance = loan_amount`, `m = 1`. -/
def schedule (loanAmount annualRatePercent : ℚ) (termMonths amortMonths : ℕ) :
    List Period × ℚ :=
  scheduleGo (monthlyRate annualRatePercent)
    (monthly_payment loanAmount annualRatePercent amortMonths) termMonths 1 loanAmount

/-- The sequence of values the loop variable `balance` holds at each
`schedule.append` (after the clamp, source line 97), one entry per
emitted period. -/
def balanceTrace (r pay : ℚ) : ℕ → ℚ → List ℚ
  | 0, _ => []
  | k+1, bal =>
    let s := amortStep r pay bal
    if s.2.2 ≤ 0 then [s.2.2]
    else s.2.2 :: balanceTrace r pay k s.2.2

/-- The balance trace of a full run of `schedule`. -/
def scheduleBalances (loanAmount annualRatePercent : ℚ) (termMonths amortMonths : ℕ) :
    List ℚ :=
  balanceTrace (monthlyRate annualRatePercent)
    (monthly_payment loanAmount annualRatePercent amortMonths) termMonths loanAmount

/-- Sum of the emitted (rounded) `Scheduled Principal` column. -/
def principalSum (ps : List Period) : ℚ := (ps.map Period.scheduledPrincipal).sum

/-! ### Ledger layer (workbook writing, source lines 10-13 and 147-187) -/

/-- Source lines 11-13: five parameter rows, header on row 6, data rows
start on row 7.  Ledger row `i` (0-based) lands on sheet row
`DATA_START_ROW + i`. -/
def DATA_START_ROW : ℕ := 7

/-- What the `Scheduled Payment` cell of a ledger row holds: either the
plain rounded payment value, or the balloon override formula
`"={standard}+{prev_balance}"` of source line 159, which sums the
regular scheduled payment and the final remaining balance. -/
inductive SPCell where
  | value (amount : ℚ)
  | balloonFormula (standard remaining : ℚ)
deriving DecidableEq, Repr

/-- Whether a `Scheduled Payment` cell received the balloon override. -/
def SPCell.isBalloon : SPCell → Bool
  | .balloonFormula _ _ => true
  | .value _ => false

/-- Source lines 153-161: the `Scheduled Payment` cell written for the
ledger row at 0-based position `i` (`enumerate` index over the emitted
schedule): the balloon formula when `i == term_months - 1`, the plain
rounded value otherwise.  `finalBalance` is the loop variable `balance`
after the schedule loop finished. -/
def sp_cell (termMonths i : ℕ) (standard finalBalance : ℚ) : SPCell :=
  if i = termMonths - 1 then .balloonFormula standard finalBalance
  else .value standard

/-- Source line 184: the reference the `Remaining Balance` formula of
0-based ledger row `i` uses for the previous balance — the literal loan
amount for the first row, the `Remaining Balance` cell on sheet row
`DATA_START_ROW + i - 1` for every later row. -/
inductive PrevRef where
  | principalLit (amount : ℚ)
  | balanceCell (sheetRow : ℕ)
deriving DecidableEq, Repr

/-- Source line 184:
`prev_ref = str(loan_amount) if i == 0 else f"{lb}{r-1}"` with
`r = DATA_START_ROW + i`. -/
def prev_ref (loanAmount : ℚ) (i : ℕ) : PrevRef :=
  if i = 0 then .principalLit loanAmount else .balanceCell (DATA_START_ROW + i - 1)

/-- An Excel cell result that is either a number or a text string; the
generated `Remaining Balance` formula yields `.text ""` when it cannot
evaluate, which is distinguishable from `.num 0`. -/
inductive XVal where
  | num (q : ℚ)
  | text (s : String)
deriving DecidableEq, Repr

/-- Evaluation semantics of the `Late Fee` formula of source line 180,
`=IF(AND(ISNUMBER(lad),ISNUMBER(ld),lad>ld+10),35,0)`: the two date
cells are blank or numeric (Excel dates are serial numbers; `ISNUMBER`
of a blank cell is false), and the fee is 35 exactly when both are
numeric and the actual date exceeds the due date by more than 10. -/
def lateFeeFormulaEval (actualDate dueDate : Option ℚ) : ℚ :=
  match actualDate, dueDate with
  | some ad, some dd => if dd + 10 < ad then 35 else 0
  | _, _ => 0

/-- Evaluation semantics of the `Total Payment Due` formula of source
line 182, `=lsp+lsi+ll`: all three arguments are same-row cells. -/
def totalPaymentDueFormulaEval (schedPrincipal schedInterest lateFee : ℚ) : ℚ :=
  schedPrincipal + schedInterest + lateFee

/-- Evaluation semantics of the `Remaining Balance` formula of source
line 185,
`=IF(AND(ISNUMBER(lap),ISNUMBER(ll)),prev - MIN(lsp+le,MAX(0,lap-lsi-ll)), "")`:
`prev` is the value behind `prev_ref`; the actual-payment, late-fee and
extra-payment cells may be blank; a blank extra payment coerces to 0
inside the arithmetic as Excel does; when either guarded cell is not
numeric the result is the empty text. -/
def remainingBalanceFormulaEval (prev : ℚ) (actualPayment lateFee extraPayment : Option ℚ)
    (schedPrincipal schedInterest : ℚ) : XVal :=
  match actualPayment, lateFee with
  | some ap, some lf =>
      .num (prev - min (schedPrincipal + extraPayment.getD 0) (max 0 (ap - schedInterest - lf)))
  | _, _ => .text ""

/-- Evaluation semantics of the `Underpayment Flag` formula of source
line 187, `=IF(AND(ISNUMBER(lap),lap<lt),"UNDERPAID","")`. -/
def underpaymentFlagFormulaEval (actualPayment : Option ℚ) (totalDue : ℚ) : String :=
  match actualPayment with
  | some ap => if ap < totalDue then "UNDERPAID" else ""
  | none => ""

/-! ### Helper lemmas -/

lemma round2_zero : round2 0 = 0 := by
  norm_num [round2, roundHalfEven]

lemma abs_roundHalfEven_sub (y : ℚ) : |(roundHalfEven y : ℚ) - y| ≤ 1/2 := by
  have h1 : (⌊y⌋ : ℚ) ≤ y := Int.floor_le y
  have h2 : y < ⌊y⌋ + 1 := Int.lt_floor_add_one y
  unfold roundHalfEven
  split_ifs with ha hb hc <;> push_cast <;> rw [abs_le] <;> constructor <;> linarith

lemma round2_abs_sub (x : ℚ) : |round2 x - x| ≤ 1/200 := by
  have h := abs_roundHalfEven_sub (100 * x)
  have hx : round2 x - x = ((roundHalfEven (100 * x) : ℚ) - 100 * x) / 100 := by
    rw [round2]; ring
  rw [hx, abs_div, show |(100 : ℚ)| = 100 by norm_num]
  linarith

lemma amortStep_eq (r pay bal : ℚ) :
    amortStep r pay bal =
      if bal - (pay - bal * r) < 0 then
        (bal * r, pay - bal * r + (bal - (pay - bal * r)), 0)
      else (bal * r, pay - bal * r, bal - (pay - bal * r)) := rfl

lemma amortStep_fst (r pay bal : ℚ) : (amortStep r pay bal).1 = bal * r := by
  rw [amortStep_eq]; split <;> rfl

lemma amortStep_principal_min (r pay bal : ℚ) :
    (amortStep r pay bal).2.1 = min bal (pay - bal * r) := by
  rw [amortStep_eq]; split_ifs with h
  · have hb : bal ≤ pay - bal * r := by linarith
    simp only [min_eq_left hb]; ring
  · have hb : pay - bal * r ≤ bal := by linarith
    simp only [min_eq_right hb]

lemma amortStep_balance_max (r pay bal : ℚ) :
    (amortStep r pay bal).2.2 = max 0 (bal - (pay - bal * r)) := by
  rw [amortStep_eq]; split_ifs with h
  · simp only [max_eq_left (le_of_lt h)]
  · simp only [max_eq_right (not_lt.mp h)]

lemma amortStep_balance_nonneg (r pay bal : ℚ) : 0 ≤ (amortStep r pay bal).2.2 := by
  rw [amortStep_balance_max]; exact le_max_left 0 _

lemma amortStep_principal_balance (r pay bal : ℚ) :
    bal - (amortStep r pay bal).2.1 = (amortStep r pay bal).2.2 := by
  rw [amortStep_eq]; split_ifs with h
  · dsimp only; ring
  · rfl

lemma scheduleGo_succ (r pay : ℚ) (k m : ℕ) (bal : ℚ) :
    scheduleGo r pay (k+1) m bal =
      if (amortStep r pay bal).2.2 ≤ 0 then
        ([⟨m, round2 pay, round2 (amortStep r pay bal).1, round2 (amortStep r pay bal).2.1⟩],
         (amortStep r pay bal).2.2)
      else
        (⟨m, round2 pay, round2 (amortStep r pay bal).1, round2 (amortStep r pay bal).2.1⟩
           :: (scheduleGo r pay k (m+1) (amortStep r pay bal).2.2).1,
         (scheduleGo r pay k (m+1) (amortStep r pay bal).2.2).2) := rfl

lemma balanceTrace_succ (r pay : ℚ) (k : ℕ) (bal : ℚ) :
    balanceTrace r pay (k+1) bal =
      if (amortStep r pay bal).2.2 ≤ 0 then [(amortStep r pay bal).2.2]
      else (amortStep r pay bal).2.2 :: balanceTrace r pay k (amortStep r pay bal).2.2 := rfl

lemma scheduleGo_length_le (r pay : ℚ) : ∀ (k m : ℕ) (bal : ℚ),
    (scheduleGo r pay k m bal).1.length ≤ k := by
  intro k
  induction k with
  | zero => intro m bal; simp [scheduleGo]
  | succ k ih =>
    intro m bal
    rw [scheduleGo_succ]
    split_ifs with h
    · simp
    · simp only [List.length_cons]
      exact Nat.succ_le_succ (ih (m+1) _)

lemma balanceTrace_nonneg (r pay : ℚ) : ∀ (k : ℕ) (bal : ℚ),
    ∀ b ∈ balanceTrace r pay k bal, 0 ≤ b := by
  intro k
  induction k with
  | zero => intro bal b hb; simp [balanceTrace] at hb
  | succ k ih =>
    intro bal b hb
    rw [balanceTrace_succ] at hb
    split_ifs at hb with h
    · simp at hb; subst hb; exact amortStep_balance_nonneg r pay bal
    · rcases List.mem_cons.mp hb with h1 | h1
      · subst h1; exact amortStep_balance_nonneg r pay bal
      · exact ih _ b h1

lemma balanceTrace_length (r pay : ℚ) : ∀ (k m : ℕ) (bal : ℚ),
    (balanceTrace r pay k bal).length = (scheduleGo r pay k m bal).1.length := by
  intro k
  induction k with
  | zero => intro m bal; simp [balanceTrace, scheduleGo]
  | succ k ih =>
    intro m bal
    rw [balanceTrace_succ, scheduleGo_succ]
    split_ifs with h
    · simp
    · simp [ih (m+1)]

lemma scheduleGo_snd_getLastD (r pay : ℚ) : ∀ (k m : ℕ) (bal : ℚ),
    (scheduleGo r pay k m bal).2 = (balanceTrace r pay k bal).getLastD bal := by
  intro k
  induction k with
  | zero => intro m bal; simp [balanceTrace, scheduleGo]
  | succ k ih =>
    intro m bal
    rw [balanceTrace_succ, scheduleGo_succ]
    split_ifs with h
    · simp
    · rw [List.getLastD_cons]
      exact ih (m+1) _

lemma scheduleGo_early_zero (r pay : ℚ) : ∀ (k m : ℕ) (bal : ℚ),
    (scheduleGo r pay k m bal).1.length < k → (scheduleGo r pay k m bal).2 = 0 := by
  intro k
  induction k with
  | zero => intro m bal h; simp [scheduleGo] at h
  | succ k ih =>
    intro m bal h
    rw [scheduleGo_succ] at h ⊢
    split_ifs at h ⊢ with hb
    · exact le_antisymm hb (amortStep_balance_nonneg r pay bal)
    · simp only [List.length_cons] at h
      exact ih (m+1) _ (by omega)

lemma scheduleGo_interest_zero (pay : ℚ) : ∀ (k m : ℕ) (bal : ℚ),
    ∀ p ∈ (scheduleGo 0 pay k m bal).1, p.scheduledInterest = 0 := by
  intro k
  induction k with
  | zero => intro m bal p hp; simp [scheduleGo] at hp
  | succ k ih =>
    intro m bal p hp
    have hi : round2 (amortStep 0 pay bal).1 = 0 := by
      rw [amortStep_fst, mul_zero, round2_zero]
    rw [scheduleGo_succ] at hp
    split_ifs at hp with h
    · simp at hp; subst hp; exact hi
    · rcases List.mem_cons.mp hp with h1 | h1
      · subst h1; exact hi
      · exact ih (m+1) _ p h1

lemma monthlyRate_eq_zero_iff (rate : ℚ) : monthlyRate rate = 0 ↔ rate = 0 := by
  rw [monthlyRate, div_div, div_eq_zero_iff]
  norm_num

lemma monthly_payment_zero_principal (rate : ℚ) (n : ℕ) : monthly_payment 0 rate n = 0 := by
  rw [monthly_payment]; split <;> simp

lemma scheduleGo_principalSum (r pay : ℚ) : ∀ (k m : ℕ) (bal : ℚ),
    |principalSum (scheduleGo r pay k m bal).1 - (bal - (scheduleGo r pay k m bal).2)| ≤
      ((scheduleGo r pay k m bal).1.length : ℚ) / 200 := by
  intro k
  induction k with
  | zero => intro m bal; simp [scheduleGo, principalSum]
  | succ k ih =>
    intro m bal
    rw [scheduleGo_succ]
    split_ifs with h
    · have hp := round2_abs_sub (amortStep r pay bal).2.1
      have hb := amortStep_principal_balance r pay bal
      simp only [principalSum, List.map_cons, List.map_nil, List.sum_cons, List.sum_nil,
        List.length_cons, List.length_nil]
      rw [abs_le] at hp ⊢
      constructor <;> push_cast <;> linarith [hp.1, hp.2]
    · have hrest := ih (m+1) (amortStep r pay bal).2.2
      have hp := round2_abs_sub (amortStep r pay bal).2.1
      have hb := amortStep_principal_balance r pay bal
      simp only [principalSum, List.map_cons, List.sum_cons, List.length_cons] at hrest ⊢
      rw [abs_le] at hp hrest ⊢
      push_cast
      constructor <;> linarith [hp.1, hp.2, hrest.1, hrest.2]

/-! ### Claims -/

/-- C1: for every input with amortizationMonths ≥ 1 the monthly payment
is computed exactly as the spec's rule (zero monthly rate: even split of
the principal; otherwise the standard annuity formula over the
amortization months); consequently, at zero rate the payment times the
amortization months equals the principal exactly, and every emitted
period's scheduled interest is 0. -/
theorem claim_C1 (P rate : ℚ) (t n : ℕ) (hn : 1 ≤ n) :
    monthly_payment P rate n = monthlyPaymentSpec P rate n ∧
    (rate = 0 →
      monthly_payment P rate n * n = P ∧
      ∀ p ∈ (schedule P rate t n).1, p.scheduledInterest = 0) := by
  constructor
  · simp only [monthly_payment, monthlyPaymentSpec, monthlyRate, annuityDenominator]
  · intro h
    subst h
    have hz : monthlyRate 0 = 0 := (monthlyRate_eq_zero_iff 0).mpr rfl
    have hne : (n : ℚ) ≠ 0 := Nat.cast_ne_zero.mpr (by omega)
    refine ⟨?_, ?_⟩
    · rw [monthly_payment, if_pos hz, div_mul_cancel₀ P hne]
    · intro p hp
      unfold schedule at hp
      rw [hz] at hp
      exact scheduleGo_interest_zero _ t 1 P p hp

/-- Witness for C1 at the spec's own zero-rate example
(principal 50000, rate 0, amortization 24 months). -/
theorem claim_C1_witness : monthly_payment 50000 0 24 * 24 = 50000 :=
  ((claim_C1 50000 0 24 24 (by norm_num)).2 rfl).1

/-- C2: each schedule step takes interest = balance · rate and
principal = payment − interest, decrements the running balance by the
principal and, when the balance would go negative, clamps it to 0 while
adding the overshoot back into the period's principal — so the clamped
period's principal is exactly the balance before its payment.  The
emitted record rounds payment, interest and principal to two decimals,
while the balance handed to the next iteration stays full precision. -/
theorem claim_C2 (r pay bal : ℚ) (m k : ℕ) :
    (amortStep r pay bal).1 = bal * r ∧
    (amortStep r pay bal).2.1 = min bal (pay - bal * r) ∧
    (amortStep r pay bal).2.2 = max 0 (bal - (pay - bal * r)) ∧
    bal - (amortStep r pay bal).2.1 = (amortStep r pay bal).2.2 ∧
    (bal - (pay - bal * r) < 0 →
      (amortStep r pay bal).2.1 = bal ∧ (amortStep r pay bal).2.2 = 0) ∧
    (scheduleGo r pay (k+1) m bal).1.head? =
      some ⟨m, round2 pay, round2 ((amortStep r pay bal).1),
        round2 ((amortStep r pay bal).2.1)⟩ ∧
    (¬ (amortStep r pay bal).2.2 ≤ 0 →
      (scheduleGo r pay (k+1) m bal).1.tail =
        (scheduleGo r pay k (m+1) ((amortStep r pay bal).2.2)).1 ∧
      (scheduleGo r pay (k+1) m bal).2 =
        (scheduleGo r pay k (m+1) ((amortStep r pay bal).2.2)).2) := by
  refine ⟨amortStep_fst r pay bal, amortStep_principal_min r pay bal,
    amortStep_balance_max r pay bal, amortStep_principal_balance r pay bal, ?_, ?_, ?_⟩
  · intro h
    constructor
    · rw [amortStep_principal_min, min_eq_left (by linarith)]
    · rw [amortStep_balance_max, max_eq_left (by linarith)]
  · rw [scheduleGo_succ]
    split_ifs <;> rfl
  · intro h
    rw [scheduleGo_succ, if_neg h]
    exact ⟨rfl, rfl⟩

/-- Witness for C2 at a step that clamps: balance 40, payment 60, rate
0 — the clamped principal is the whole prior balance and the new
balance is 0. -/
theorem claim_C2_witness :
    (amortStep 0 60 40).2.1 = 40 ∧ (amortStep 0 60 40).2.2 = 0 :=
  (claim_C2 0 60 40 1 0).2.2.2.2.1 (by norm_num)

/-- C3: the Scheduled Payment cell gets the balloon override exactly on
the ledger row whose 1-based position equals termMonths (0-based
enumerate index `termMonths - 1`); rows of a schedule shorter than
termMonths never receive it. -/
theorem claim_C3 (termMonths i len : ℕ) (h1 : 1 ≤ termMonths) (hi : i < len)
    (standard finalBalance : ℚ) :
    ((sp_cell termMonths i standard finalBalance).isBalloon = true ↔ i + 1 = termMonths) ∧
    (len < termMonths → (sp_cell termMonths i standard finalBalance).isBalloon = false) := by
  constructor
  · rw [sp_cell]
    by_cases h : i = termMonths - 1
    · rw [if_pos h]
      constructor
      · intro _
        omega
      · intro _
        rfl
    · rw [if_neg h]
      constructor
      · intro hb
        exact absurd hb Bool.false_ne_true
      · intro hc
        exact absurd (by omega : i = termMonths - 1) h
  · intro hlen
    have hne : ¬ i = termMonths - 1 := by omega
    rw [sp_cell, if_neg hne]
    rfl

/-- Witness for C3: the 60th row (enumerate index 59) of a 60-month
term gets the balloon override. -/
theorem claim_C3_witness : (sp_cell 60 59 (59955/100) 92486).isBalloon = true :=
  (claim_C3 60 59 60 (by norm_num) (by norm_num) (59955/100) 92486).1.mpr (by norm_num)

/-- C4 counterexample: principal 100, rate 0, termMonths 1,
amortizationMonths 2 (a balloon structure).  The single emitted period
leaves the running balance at 50, not 0, so "the running balance
reaches exactly 0 by the last emitted period" fails as stated. -/
theorem claim_C4_counterexample :
    (schedule 100 0 1 2).1.length = 1 ∧ ¬ (schedule 100 0 1 2).2 = 0 := by
  norm_num [schedule, scheduleGo, amortStep, monthly_payment, monthlyRate, round2,
    roundHalfEven]

/-- C4 as amended: the emitted schedule never exceeds termMonths
periods, the running balance is non-negative after every emitted
period (`scheduleBalances` lists the balance carried out of each
period, one per emitted record, ending in the loop's final balance),
and the balance is exactly 0 at the last emitted period whenever the
iteration stopped early (schedule shorter than termMonths); when the
loop runs all termMonths the final balance may stay positive (balloon
remainder). -/
theorem claim_C4 (P rate : ℚ) (t n : ℕ) :
    (schedule P rate t n).1.length ≤ t ∧
    (∀ b ∈ scheduleBalances P rate t n, 0 ≤ b) ∧
    (scheduleBalances P rate t n).length = (schedule P rate t n).1.length ∧
    (schedule P rate t n).2 = (scheduleBalances P rate t n).getLastD P ∧
    ((schedule P rate t n).1.length < t → (schedule P rate t n).2 = 0) :=
  ⟨scheduleGo_length_le _ _ t 1 P, balanceTrace_nonneg _ _ t P,
    balanceTrace_length _ _ t 1 P, scheduleGo_snd_getLastD _ _ t 1 P,
    scheduleGo_early_zero _ _ t 1 P⟩

/-- Witness for C4: principal 100, rate 0, term 2 months, amortization
1 month — the loan pays off in one period, the schedule stops early,
and the final balance is 0. -/
theorem claim_C4_witness : (schedule 100 0 2 1).2 = 0 :=
  (claim_C4 100 0 2 1).2.2.2.2
    (by norm_num [schedule, scheduleGo, amortStep, monthly_payment, monthlyRate, round2,
      roundHalfEven])

/-- C5: the Remaining Balance formula yields a number exactly when both
the actual-payment cell and the late-fee cell are numeric, and the
empty text (distinguishable from a zero balance) otherwise; when
numeric it is the previous balance minus the lesser of
scheduledPrincipal + extraPaymentMade (a blank extra payment counting
as 0) and max(0, actualPaymentMade − scheduledInterest − lateFee); and
the previous-balance reference is the original loan amount for the
first ledger row and row i−1's Remaining Balance cell for every later
row i. -/
theorem claim_C5 (prev : ℚ) (ap lf extra : Option ℚ) (sp si loanAmount : ℚ) (i : ℕ)
    (hi : 0 < i) :
    ((∃ q, remainingBalanceFormulaEval prev ap lf extra sp si = .num q) ↔
      ap.isSome = true ∧ lf.isSome = true) ∧
    (∀ a f, ap = some a → lf = some f →
      remainingBalanceFormulaEval prev ap lf extra sp si =
        .num (prev - min (sp + extra.getD 0) (max 0 (a - si - f)))) ∧
    (¬ (ap.isSome = true ∧ lf.isSome = true) →
      remainingBalanceFormulaEval prev ap lf extra sp si = .text "") ∧
    XVal.text "" ≠ XVal.num 0 ∧
    prev_ref loanAmount 0 = .principalLit loanAmount ∧
    prev_ref loanAmount i = .balanceCell (DATA_START_ROW + i - 1) := by
  refine ⟨?_, ?_, ?_, by simp, by simp [prev_ref], ?_⟩
  · cases ap <;> cases lf <;> simp [remainingBalanceFormulaEval]
  · intro a f ha hf
    subst ha; subst hf
    rfl
  · intro hng
    cases ap <;> cases lf <;> simp_all [remainingBalanceFormulaEval]
  · rw [prev_ref, if_neg (Nat.pos_iff_ne_zero.mp hi)]

/-- Witness for C5: previous balance 1000, actual payment 200, late fee
0, no extra payment, scheduled principal 100, scheduled interest 50 —
the formula evaluates to 900. -/
theorem claim_C5_witness :
    remainingBalanceFormulaEval 1000 (some 200) (some 0) none 100 50 = .num 900 := by
  have h := (claim_C5 1000 (some 200) (some 0) none 100 50 5000 3 (by norm_num)).2.1
    200 0 rfl rfl
  rw [h]
  norm_num [min_def, max_def]

/-- C6: the Late Fee formula evaluates to the fixed penalty 35 exactly
when the actual payment date and the due date are both numeric and the
actual date exceeds the due date by strictly more than 10 days, and to
0 otherwise; the Total Payment Due formula is
scheduledPrincipal + scheduledInterest + lateFee over same-row cells. -/
theorem claim_C6 (ad dd : Option ℚ) (sp si lf : ℚ) :
    (lateFeeFormulaEval ad dd = 35 ↔
      ∃ a d, ad = some a ∧ dd = some d ∧ d + 10 < a) ∧
    ((¬ ∃ a d, ad = some a ∧ dd = some d ∧ d + 10 < a) → lateFeeFormulaEval ad dd = 0) ∧
    totalPaymentDueFormulaEval sp si lf = sp + si + lf := by
  refine ⟨?_, ?_, rfl⟩
  · cases ad with
    | none =>
      cases dd with
      | none =>
        constructor
        · intro hc
          exact absurd hc (by norm_num [lateFeeFormulaEval])
        · rintro ⟨a, d, ha, hd, -⟩
          cases ha
      | some d =>
        constructor
        · intro hc
          exact absurd hc (by norm_num [lateFeeFormulaEval])
        · rintro ⟨a, d2, ha, hd, -⟩
          cases ha
    | some a =>
      cases dd with
      | none =>
        constructor
        · intro hc
          exact absurd hc (by norm_num [lateFeeFormulaEval])
        · rintro ⟨a2, d, ha, hd, -⟩
          cases hd
      | some d =>
        simp only [lateFeeFormulaEval]
        split_ifs with h
        · simp only [true_iff]
          exact ⟨a, d, rfl, rfl, h⟩
        · constructor
          · intro hc
            exact absurd hc (by norm_num)
          · rintro ⟨a2, d2, ha, hd, hlt⟩
            cases ha
            cases hd
            exact absurd hlt h
  · intro hng
    cases ad with
    | none => rfl
    | some a =>
      cases dd with
      | none => rfl
      | some d =>
        simp only [lateFeeFormulaEval]
        rw [if_neg]
        intro hlt
        exact hng ⟨a, d, rfl, rfl, hlt⟩

/-- Witness for C6: payment dated 25 against a due date of 10 (15 days
late, beyond the 10-day grace) draws the fee of 35. -/
theorem claim_C6_witness : lateFeeFormulaEval (some 25) (some 10) = 35 :=
  (claim_C6 (some 25) (some 10) 0 0 0).1.mpr ⟨25, 10, rfl, rfl, by norm_num⟩

/-- C7: the Underpayment Flag formula yields the literal "UNDERPAID"
exactly when the actual payment is numeric and strictly below the Total
Payment Due, and the empty string otherwise. -/
theorem claim_C7 (ap : Option ℚ) (td : ℚ) :
    (underpaymentFlagFormulaEval ap td = "UNDERPAID" ↔ ∃ a, ap = some a ∧ a < td) ∧
    ((¬ ∃ a, ap = some a ∧ a < td) → underpaymentFlagFormulaEval ap td = "") := by
  constructor
  · cases ap with
    | none =>
      simp only [underpaymentFlagFormulaEval]
      constructor
      · intro hc
        exact absurd hc (by decide)
      · rintro ⟨a, ha, -⟩
        cases ha
    | some a =>
      simp only [underpaymentFlagFormulaEval]
      split_ifs with h
      · simp only [true_iff]
        exact ⟨a, rfl, h⟩
      · constructor
        · intro hc
          exact absurd hc (by decide)
        · rintro ⟨x, hx, hlt⟩
          cases hx
          exact absurd hlt h
  · intro hng
    cases ap with
    | none => rfl
    | some a =>
      simp only [underpaymentFlagFormulaEval]
      rw [if_neg]
      intro hlt
      exact hng ⟨a, rfl, hlt⟩

/-- Witness for C7: an actual payment of 5 against a total due of 10 is
flagged "UNDERPAID". -/
theorem claim_C7_witness : underpaymentFlagFormulaEval (some 5) 10 = "UNDERPAID" :=
  (claim_C7 (some 5) 10).1.mpr ⟨5, rfl, by norm_num⟩

/-- C8 counterexample: principal 1/25 (four cents), rate 0, term and
amortization 12 months.  Each period's full-precision principal is
1/300, which rounds to 0.00, so the emitted scheduledPrincipal column
sums to 0 while the loan fully amortizes (final balance 0, no clamping
adjustment): the sum misses the principal by four cents, beyond the
claimed one-cent tolerance. -/
theorem claim_C8_counterexample :
    (schedule (1/25) 0 12 12).2 = 0 ∧
    principalSum (schedule (1/25) 0 12 12).1 = 0 ∧
    ¬ |principalSum (schedule (1/25) 0 12 12).1 - (1/25 - (schedule (1/25) 0 12 12).2)| ≤
        1/100 := by
  refine ⟨?_, ?_, ?_⟩ <;>
    norm_num [schedule, scheduleGo, amortStep, monthly_payment, monthlyRate, round2,
      roundHalfEven, principalSum, abs_le]

/-- C8 as amended: the sum of the emitted (two-decimal rounded)
scheduledPrincipal values equals the principal minus the final running
balance (the unamortized or clamping remainder) to within half a cent
per emitted period — 1/200 of a currency unit times the schedule
length — not uniformly within one cent. -/
theorem claim_C8 (P rate : ℚ) (t n : ℕ) :
    |principalSum (schedule P rate t n).1 - (P - (schedule P rate t n).2)| ≤
      ((schedule P rate t n).1.length : ℚ) / 200 :=
  scheduleGo_principalSum _ _ t 1 P

/-- C9: with amortizationMonths ≥ 1 neither branch of the payment
computation divides by zero — the zero-rate branch's divisor
amortizationMonths is nonzero, and for a positive monthly rate the
annuity denominator (1 + monthlyRate)^amortizationMonths − 1 is
strictly positive. -/
theorem claim_C9 (rate : ℚ) (n : ℕ) (hr : 0 ≤ rate) (hn : 1 ≤ n) :
    ((n : ℚ) ≠ 0) ∧ (monthlyRate rate ≠ 0 → 0 < annuityDenominator rate n) := by
  constructor
  · exact Nat.cast_ne_zero.mpr (by omega)
  · intro h
    have hrpos : 0 < monthlyRate rate := by
      rcases lt_or_eq_of_le hr with h1 | h1
      · unfold monthlyRate
        positivity
      · exact absurd ((monthlyRate_eq_zero_iff rate).mpr h1.symm) h
    have hpow : 1 < (1 + monthlyRate rate) ^ n :=
      one_lt_pow₀ (by linarith) (by omega)
    unfold annuityDenominator
    linarith

/-- Witness for C9: at 6% annual rate and 12 amortization months the
annuity denominator is strictly positive. -/
theorem claim_C9_witness : 0 < annuityDenominator 6 12 :=
  (claim_C9 6 12 (by norm_num) (by norm_num)).2 (by norm_num [monthlyRate])

/-- C10: a zero-principal loan emits exactly one period, with payment,
interest and principal all 0, and leaves the running balance at 0 (the
loop appends the record for index 1, then stops because the balance is
already ≤ 0). -/
theorem claim_C10 (rate : ℚ) (t n : ℕ) (_hr : 0 ≤ rate) (ht : 1 ≤ t) (_hn : 1 ≤ n) :
    (schedule 0 rate t n).1 = [⟨1, 0, 0, 0⟩] ∧ (schedule 0 rate t n).2 = 0 := by
  obtain ⟨t2, rfl⟩ : ∃ t2, t = t2 + 1 := ⟨t - 1, by omega⟩
  have hpay : monthly_payment 0 rate n = 0 := monthly_payment_zero_principal rate n
  have hstep : amortStep (monthlyRate rate) 0 0 = (0, 0, 0) := by
    rw [amortStep_eq]
    norm_num
  unfold schedule
  rw [hpay, scheduleGo_succ, hstep]
  norm_num [round2_zero]

/-- Witness for C10 at rate 5%, term 12, amortization 24. -/
theorem claim_C10_witness : (schedule 0 5 12 24).1 = [⟨1, 0, 0, 0⟩] :=
  (claim_C10 5 12 24 (by norm_num) (by norm_num) (by norm_num)).1

end LoanAmortization
